import Mathlib

/-!
Shallow embedding of `src/backend/server.js`, an Express + Mongoose service for
assignment submission and fraud-flagging review.

Modelling conventions:
* The three Mongoose collections (`User`, `Assignment`, `Notification`) and the
  `uploads/` directory are a single explicit state `DB`; each route handler is a
  pure function from the request data and the current `DB` to the next `DB` and
  an HTTP status (plus a body where a claim needs it).
* Mongo document ids are `Nat`; `Date.now()` timestamps are `Nat` parameters;
  `Math.random()` temporary passwords and the mail transport outcome are
  parameters, since they are external inputs to the handler logic.
* `findOne` / `findById` return the first stored match (`List.find?`);
  `document.save()` after mutating a found document writes back in place
  (`updateFirst`); `findByIdAndDelete` removes the first id match.
* JSON body fields that a claim exercises with `null` are `Option String`
  (`none` = JSON null / absent); JavaScript `!==` on such fields is `Option`
  equality, since `null !== null` is `false`.
-/

namespace FraudDetection

/-- UserSchema (server.js:45-50): email, password, role, and a nullable
temporary password defaulting to null. -/
structure User where
  email : String
  password : String
  role : String
  tempPassword : Option String
  deriving Repr, DecidableEq

/-- AssignmentSchema (server.js:54-62): owning email, optional filename,
upload time, status (default "submitted"), fraudScore (default 0), feedback
(default ""), required subject. The schema declares no `text` path. `id` models
the Mongo `_id`. -/
structure Assignment where
  id : Nat
  email : String
  filename : Option String
  uploadTime : Nat
  status : String
  fraudScore : Int
  feedback : String
  subject : String
  deriving Repr, DecidableEq

/-- NotificationSchema (server.js:66-70): target email, message, timestamp. -/
structure Notification where
  email : String
  message : String
  timestamp : Nat
  deriving Repr, DecidableEq

/-- The persistent state: the three collections plus the names of the files
present in the `uploads/` directory. -/
structure DB where
  users : List User
  assignments : List Assignment
  notifications : List Notification
  files : List String
  deriving Repr, DecidableEq

def dbEmpty : DB := ⟨[], [], [], []⟩

/-- Replace the first element satisfying `p` by its image under `f`
(models mutating the document returned by `findOne` and then `save()`). -/
def updateFirst (p : α → Bool) (f : α → α) : List α → List α
  | [] => []
  | x :: xs => if p x then f x :: xs else x :: updateFirst p f xs

/-- Remove the first element satisfying `p` (models `findByIdAndDelete`). -/
def removeFirst (p : α → Bool) : List α → List α
  | [] => []
  | x :: xs => if p x then xs else x :: removeFirst p xs

/-- Character class [A-Z] of the password regex. -/
def isUpperAZ (c : Char) : Bool := 'A' ≤ c && c ≤ 'Z'

/-- Character class [a-z] of the password regex. -/
def isLowerAZ (c : Char) : Bool := 'a' ≤ c && c ≤ 'z'

/-- Character class \d of the password regex. -/
def isDigit09 (c : Char) : Bool := '0' ≤ c && c ≤ '9'

/-- The fixed symbol set [!@#$%^&*()] of the password regex. -/
def symbolChars : List Char := ['!', '@', '#', '$', '%', '^', '&', '*', '(', ')']

/-- A character allowed by the body class [A-Za-z\d!@#$%^&*()]. -/
def allowedChar (c : Char) : Bool :=
  isUpperAZ c || isLowerAZ c || isDigit09 c || symbolChars.contains c

/-- validatePassword (server.js:261-264): the anchored regex
(?=.*[A-Z])(?=.*\d)(?=.*[!@#$%^&*()])[A-Za-z\d!@#$%^&*()]\x7b8,\x7d holds iff the
string has some uppercase letter, some digit, some listed symbol, consists only
of the body class, and has length at least 8. (The lookaheads' `.` excludes
newline, but a newline already fails the body class, so this is equivalent.) -/
def validatePassword (password : String) : Bool :=
  password.toList.any isUpperAZ &&
  password.toList.any isDigit09 &&
  password.toList.any (fun c => symbolChars.contains c) &&
  password.toList.all allowedChar &&
  decide (password.length ≥ 8)

/-- First POST /register handler (server.js:90-99): 400 if the email exists,
otherwise store the account (no password validation) and answer 201. -/
def registerHandler1 (db : DB) (email password role : String) : DB × Nat :=
  match db.users.find? (fun u => u.email == email) with
  | some _ => (db, 400)
  | none => ({ db with users := db.users ++ [⟨email, password, role, none⟩] }, 201)

/-- Second POST /register handler (server.js:267-281): 400 if the password
fails validatePassword, then the same existence check and insert. -/
def registerHandler2 (db : DB) (email password role : String) : DB × Nat :=
  if !validatePassword password then (db, 400)
  else
    match db.users.find? (fun u => u.email == email) with
    | some _ => (db, 400)
    | none => ({ db with users := db.users ++ [⟨email, password, role, none⟩] }, 201)

/-- Express dispatches a request to the first handler registered for a matching
method and path, and the first /register handler always ends the response
without calling next(), so the second /register handler (server.js:267) is
unreachable: POST /register behaves as registerHandler1. -/
def register : DB → String → String → String → DB × Nat := registerHandler1

/-- POST /login (server.js:101-110). The body password may be JSON null
(`none`); the stored password is a required string, so `user.password !==
password` compares `some user.password` with the body value, while
`user.tempPassword !== password` compares two nullable values. -/
def login (db : DB) (email : String) (password : Option String) (role : String) :
    Nat × Option (String × String) :=
  match db.users.find? (fun u => u.email == email) with
  | none => (400, none)
  | some user =>
    if some user.password ≠ password ∧ user.tempPassword ≠ password then (400, none)
    else if user.role ≠ role then (400, none)
    else (200, some (user.email, user.role))

/-- Lowercase one character as JavaScript toLowerCase() does on ASCII. -/
def toLowerChar (c : Char) : Char :=
  if isUpperAZ c then Char.ofNat (c.toNat + 32) else c

/-- Drop leading and trailing whitespace, as JavaScript trim() does
(restricted to ASCII whitespace). -/
def trimChars (l : List Char) : List Char :=
  ((l.dropWhile Char.isWhitespace).reverse.dropWhile Char.isWhitespace).reverse

/-- The normalization email.trim().toLowerCase() at server.js:116, modelled on
ASCII characters. -/
def normalizeEmail (email : String) : String :=
  String.mk ((trimChars email.toList).map toLowerChar)

/-- POST /forgot-password (server.js:112-153): normalize the email, 400 if no
account; otherwise persist the generated temporary password (`temp`) on the
account and only then attempt mail delivery: 500 on transport error (`mailOk =
false`), 200 otherwise. The state mutation happens in both outcomes. -/
def forgotPassword (db : DB) (email : String) (temp : String) (mailOk : Bool) : DB × Nat :=
  let normalizedEmail := normalizeEmail email
  match db.users.find? (fun u => u.email == normalizedEmail) with
  | none => (db, 400)
  | some _ =>
    let db' := { db with
      users := updateFirst (fun u => u.email == normalizedEmail)
        (fun u => { u with tempPassword := some temp }) db.users }
    if mailOk then (db', 200) else (db', 500)

/-- POST /change-password (server.js:155-169): 400 if no account, if the new
passwords differ, or if the old password matches neither the stored nor the
temporary password; otherwise overwrite the password, clear the temporary
password, and answer 200. No password-policy check is performed. -/
def changePassword (db : DB) (email oldPassword newPassword confirmPassword : String) :
    DB × Nat :=
  match db.users.find? (fun u => u.email == email) with
  | none => (db, 400)
  | some user =>
    if newPassword ≠ confirmPassword then (db, 400)
    else if user.password ≠ oldPassword ∧ user.tempPassword ≠ some oldPassword then (db, 400)
    else
      ({ db with
          users := updateFirst (fun u => u.email == email)
            (fun u => { u with password := newPassword, tempPassword := none }) db.users },
        200)

/-- POST /upload (server.js:172-184): 400 if no file part; otherwise multer has
written the file under its original name into uploads/ (same name overwrites)
and the handler stores an Assignment referencing that filename, with the
schema defaults for status, fraudScore and feedback. -/
def upload (db : DB) (email subject : String) (file : Option String) (now newId : Nat) :
    DB × Nat :=
  match file with
  | none => (db, 400)
  | some filename =>
    ({ db with
        files := (db.files.filter (fun f => f ≠ filename)) ++ [filename],
        assignments := db.assignments ++
          [⟨newId, email, some filename, now, "submitted", 0, "", subject⟩] },
      200)

/-- POST /upload-text (server.js:246-259): 400 if the text is empty; otherwise
construct an Assignment from the body. The AssignmentSchema (server.js:54-62)
declares no `text` path, and Mongoose strict mode (the default) silently drops
paths absent from the schema, so the saved document holds only email, subject
and the schema defaults — the submitted text is discarded and no filename is
set. -/
def uploadText (db : DB) (email subject text : String) (now newId : Nat) : DB × Nat :=
  if text = "" then (db, 400)
  else
    ({ db with
        assignments := db.assignments ++
          [⟨newId, email, none, now, "submitted", 0, "", subject⟩] },
      200)

/-- GET /assignments query (server.js:193-205): filter by email, and by subject
only when the subject query parameter is truthy (present and nonempty), after
JavaScript `if (subject)`. -/
def assignmentQuery (email : String) (subject : Option String) (a : Assignment) : Bool :=
  a.email == email &&
    (match subject with
     | some s => if s.isEmpty then true else a.subject == s
     | none => true)

/-- The filter stated by the spec's listForStudent sentence, for comparison
with assignmentQuery: owning email equals the argument, and the subject
matches when one is supplied. -/
def specListFilter (email : String) (subject : Option String) (a : Assignment) : Bool :=
  a.email == email &&
    (match subject with
     | some s => a.subject == s
     | none => true)

/-- The descending upload-time order of `.sort(\x7b uploadTime: -1 \x7d)`:
`a` may precede `b` iff `a.uploadTime ≥ b.uploadTime`. -/
def uploadDesc (a b : Assignment) : Prop := b.uploadTime ≤ a.uploadTime

instance : DecidableRel uploadDesc :=
  fun a b => inferInstanceAs (Decidable (b.uploadTime ≤ a.uploadTime))

instance : IsTotal Assignment uploadDesc := ⟨fun a b => le_total b.uploadTime a.uploadTime⟩

instance : IsTrans Assignment uploadDesc := ⟨fun _ _ _ h1 h2 => le_trans h2 h1⟩

/-- GET /assignments (server.js:193-205): the stored assignments matching the
query, ordered by upload time descending. Mongo specifies no order among equal
sort keys, so any sort producing the `uploadDesc` order models it; we use
insertion sort. -/
def getAssignments (db : DB) (email : String) (subject : Option String) : List Assignment :=
  List.insertionSort uploadDesc (db.assignments.filter (assignmentQuery email subject))

/-- Outcome of POST /flag-assignment/:id. `nullCrash` is the behaviour when
`findByIdAndUpdate` returns null: the handler dereferences `assignment.email`,
throwing an uncaught TypeError, so no HTTP status is produced at all. -/
inductive FlagOutcome where
  | forbidden
  | nullCrash
  | flagged (a : Assignment)
  deriving Repr, DecidableEq

/-- A JavaScript template literal renders an undefined field as "undefined". -/
def showFilename : Option String → String
  | some f => f
  | none => "undefined"

/-- The notification text built at server.js:231. -/
def notifMessage (filename : Option String) (feedback : String) : String :=
  ("Your assignment \"" ++ showFilename filename ++ "\" has been flagged. Feedback: ")
    ++ feedback

/-- POST /flag-assignment/:id (server.js:222-236), behind checkRole("teacher")
(server.js:74-78) on the caller-supplied role header. `findByIdAndUpdate` sets
status := "flagged", fraudScore and feedback on the id's document and yields
the updated document (`new: true`); the handler then saves one Notification to
the document's email quoting its filename and the feedback. When the id is
absent the update yields null and `assignment.email` crashes (no 404 path). -/
def flagAssignment (db : DB) (roleHeader : String) (id : Nat) (fraudScore : Int)
    (feedback : String) (now : Nat) : DB × FlagOutcome :=
  if roleHeader ≠ "teacher" then (db, .forbidden)
  else
    match db.assignments.find? (fun a => a.id == id) with
    | none => (db, .nullCrash)
    | some a0 =>
      let a : Assignment := { a0 with status := "flagged", fraudScore := fraudScore,
                                      feedback := feedback }
      ({ db with
          assignments := updateFirst (fun x => x.id == id)
            (fun x => { x with status := "flagged", fraudScore := fraudScore,
                               feedback := feedback }) db.assignments,
          notifications := db.notifications ++
            [⟨a.email, notifMessage a.filename feedback, now⟩] },
        .flagged a)

/-- DELETE /assignments/:id (server.js:284-297): `findByIdAndDelete` removes
the id's document; 404 when the id is absent, 200 otherwise. Nothing else is
touched. -/
def deleteAssignment (db : DB) (id : Nat) : DB × Nat :=
  match db.assignments.find? (fun a => a.id == id) with
  | none => (db, 404)
  | some _ =>
    ({ db with assignments := removeFirst (fun a => a.id == id) db.assignments }, 200)

/-- GET /download/:filename (server.js:187-190): `res.download` succeeds iff
the named file exists in the uploads directory. -/
def downloadOk (db : DB) (filename : String) : Bool := db.files.contains filename

/-! Helper lemmas about the store primitives. -/

theorem find?_updateFirst {α : Type} {p : α → Bool} {f : α → α}
    (hpf : ∀ a, p (f a) = p a) {l : List α} {u : α}
    (h : l.find? p = some u) : (updateFirst p f l).find? p = some (f u) := by
  induction l with
  | nil => simp at h
  | cons x xs ih =>
    cases hx : p x with
    | true =>
      rw [List.find?_cons_of_pos _ hx] at h
      cases h
      rw [updateFirst, if_pos hx]
      exact List.find?_cons_of_pos _ (by rw [hpf]; exact hx)
    | false =>
      rw [List.find?_cons_of_neg _ (by simp [hx])] at h
      rw [updateFirst, if_neg (by simp [hx])]
      rw [List.find?_cons_of_neg _ (by simp [hx])]
      exact ih h

theorem login_fails_on_wrong_password (db : DB) (email : String) (pw : Option String)
    (role : String) (u : User)
    (hfind : db.users.find? (fun v => v.email == email) = some u)
    (hpw : some u.password ≠ pw) (htpw : u.tempPassword ≠ pw) :
    login db email pw role = (400, none) := by
  unfold login
  rw [hfind]
  show (if some u.password ≠ pw ∧ u.tempPassword ≠ pw
          then ((400, none) : Nat × Option (String × String))
        else if u.role ≠ role then (400, none)
        else (200, some (u.email, u.role))) = (400, none)
  rw [if_pos ⟨hpw, htpw⟩]

theorem mem_removeFirst_of_neg {α : Type} {p : α → Bool} {a : α} (ha : p a = false) :
    ∀ {l : List α}, a ∈ l → a ∈ removeFirst p l := by
  intro l
  induction l with
  | nil => intro h; simp at h
  | cons x xs ih =>
    intro h
    rcases List.mem_cons.mp h with rfl | hmem
    · simp [removeFirst, ha]
    · cases hx : p x with
      | true => simp [removeFirst, hx, hmem]
      | false =>
        rw [removeFirst, if_neg (by simp [hx])]
        exact List.mem_cons_of_mem x (ih hmem)

/-! Concrete stores used by the closed theorems and witnesses. -/

def dbC1 : DB := ⟨[⟨"u@x.com", "abc", "student", none⟩], [], [], []⟩

def dbC2 : DB := ⟨[⟨"a@x.com", "Abc12345!", "student", none⟩], [], [], []⟩

def dbC3 : DB := ⟨[], [⟨1, "s@x.com", some "hw.pdf", 3, "submitted", 0, "", "math"⟩], [], []⟩

/-- C1: the dispatched POST /register accepts the password "abc" with 201 on a
fresh store instead of failing validation with 400: the first registered
handler performs no policy check, and only the shadowed second handler
(registerHandler2) rejects "abc"; "Abc12345!" does satisfy the policy. -/
theorem register_dispatch_skips_validation :
    validatePassword "abc" = false ∧
    validatePassword "Abc12345!" = true ∧
    register dbEmpty "u@x.com" "abc" "student" = (dbC1, 201) ∧
    (registerHandler2 dbEmpty "u@x.com" "abc" "student").2 = 400 := by
  decide

/-- C2: for a stored account whose temporary password is unset, a login with
the matching email and role and a JSON-null password is accepted and returns
the email and role, because null compares equal to the unset temporary
password. -/
theorem login_null_password (db : DB) (u : User)
    (hfind : db.users.find? (fun v => v.email == u.email) = some u)
    (htemp : u.tempPassword = none) :
    login db u.email none u.role = (200, some (u.email, u.role)) := by
  unfold login
  rw [hfind]
  simp [htemp]

/-- C2 witness. -/
theorem login_null_password_witness :
    login dbC2 "a@x.com" none "student" = (200, some ("a@x.com", "student")) :=
  login_null_password dbC2 ⟨"a@x.com", "Abc12345!", "student", none⟩ (by decide) rfl

/-- C3: flagging a missing id as teacher does not produce a NotFound response:
the handler crashes on the null update result (uncaught TypeError) and the
store is unchanged; on an existing id the assignment is flagged with the given
fraud score and feedback. -/
theorem flagAssignment_missing_id_crashes :
    (flagAssignment dbC3 "teacher" 99 80 "plagiarized" 5).2 = FlagOutcome.nullCrash ∧
    (flagAssignment dbC3 "teacher" 99 80 "plagiarized" 5).1 = dbC3 ∧
    (flagAssignment dbC3 "teacher" 1 80 "plagiarized" 5).1.assignments =
      [⟨1, "s@x.com", some "hw.pdf", 3, "flagged", 80, "plagiarized", "math"⟩] := by
  decide

/-- C4: upload-text rejects empty text with 400, but the stored Submission
does not carry the submitted text: two uploads differing only in their
(nonempty) text produce identical stores, and the created record holds only
email, subject and the schema defaults. -/
theorem uploadText_rejects_empty_but_drops_text :
    (uploadText dbEmpty "s@x.com" "math" "" 3 1).2 = 400 ∧
    uploadText dbEmpty "s@x.com" "math" "2+2=4" 3 1 =
      uploadText dbEmpty "s@x.com" "math" "unrelated text" 3 1 ∧
    (uploadText dbEmpty "s@x.com" "math" "2+2=4" 3 1).1.assignments =
      [⟨1, "s@x.com", none, 3, "submitted", 0, "", "math"⟩] := by
  decide

/-- C5: a successful flag on an existing submission appends exactly one new
Notification, addressed to the submission's owning email, whose message ends
with the submitted feedback text. -/
theorem flag_creates_one_notification (db : DB) (id : Nat) (fs : Int) (fb : String)
    (now : Nat) (a : Assignment)
    (hfind : db.assignments.find? (fun x => x.id == id) = some a) :
    (flagAssignment db "teacher" id fs fb now).1.notifications =
      db.notifications ++ [⟨a.email, notifMessage a.filename fb, now⟩] ∧
    ∃ pre, notifMessage a.filename fb = pre ++ fb := by
  refine ⟨?_, ⟨"Your assignment \"" ++ showFilename a.filename ++
    "\" has been flagged. Feedback: ", rfl⟩⟩
  simp [flagAssignment, hfind]

/-- C5 witness. -/
theorem flag_creates_one_notification_witness :
    (flagAssignment dbC3 "teacher" 1 80 "plagiarized" 5).1.notifications =
      [⟨"s@x.com", notifMessage (some "hw.pdf") "plagiarized", 5⟩] ∧
    ∃ pre, notifMessage (some "hw.pdf") "plagiarized" = pre ++ "plagiarized" :=
  flag_creates_one_notification dbC3 1 80 "plagiarized" 5
    ⟨1, "s@x.com", some "hw.pdf", 3, "submitted", 0, "", "math"⟩ (by decide)

/-- C6: forgot-password on an existing account whose mail transport errors
answers 500, yet the generated temporary password is already persisted on the
account: the state mutation is committed despite the delivery failure. -/
theorem forgotPassword_persists_despite_mail_error (db : DB) (email temp : String) (u : User)
    (hfind : db.users.find? (fun v => v.email == normalizeEmail email) = some u) :
    (forgotPassword db email temp false).2 = 500 ∧
    (forgotPassword db email temp false).1.users.find?
        (fun v => v.email == normalizeEmail email) =
      some { u with tempPassword := some temp } := by
  have h2 := find?_updateFirst (p := fun v : User => v.email == normalizeEmail email)
    (f := fun v : User => { v with tempPassword := some temp }) (fun _ => rfl) hfind
  constructor
  · simp [forgotPassword, hfind]
  · simpa [forgotPassword, hfind] using h2

/-- C6 witness. -/
theorem forgotPassword_persists_despite_mail_error_witness :
    (forgotPassword dbC2 "a@x.com" "tmp12345" false).2 = 500 ∧
    (forgotPassword dbC2 "a@x.com" "tmp12345" false).1.users.find?
        (fun v => v.email == normalizeEmail "a@x.com") =
      some ⟨"a@x.com", "Abc12345!", "student", some "tmp12345"⟩ :=
  forgotPassword_persists_despite_mail_error dbC2 "a@x.com" "tmp12345"
    ⟨"a@x.com", "Abc12345!", "student", none⟩ (by decide)

def dbC7 : DB := ⟨[⟨"a@x.com", "Old12345!", "student", some "tmp11111"⟩], [], [], []⟩

/-- C7 counterexample: choosing the former temporary password as the new
password makes changePassword succeed and leaves that same string
authenticating afterwards (now as the stored password), so a login with the
former temporary password does not fail Unauthorized. -/
theorem changePassword_temp_reuse_counterexample :
    (changePassword dbC7 "a@x.com" "tmp11111" "tmp11111" "tmp11111").2 = 200 ∧
    login (changePassword dbC7 "a@x.com" "tmp11111" "tmp11111" "tmp11111").1
      "a@x.com" (some "tmp11111") "student" = (200, some ("a@x.com", "student")) := by
  decide

/-- C7 (amended): after changePassword succeeds on an account with an active
temporary password, the stored password equals the new password and the
temporary password is cleared; provided the new password differs from the
former temporary password, a subsequent login with the former temporary
password fails Unauthorized (400) for every requested role. -/
theorem changePassword_clears_temp (db : DB) (email oldP newP cpw t role : String) (u : User)
    (hfind : db.users.find? (fun v => v.email == email) = some u)
    (htemp : u.tempPassword = some t)
    (hok : (changePassword db email oldP newP cpw).2 = 200)
    (hne : newP ≠ t) :
    (changePassword db email oldP newP cpw).1.users.find? (fun v => v.email == email) =
      some { u with password := newP, tempPassword := none } ∧
    login (changePassword db email oldP newP cpw).1 email (some t) role = (400, none) := by
  have hbody : changePassword db email oldP newP cpw =
      (if newP ≠ cpw then (db, 400)
       else if u.password ≠ oldP ∧ u.tempPassword ≠ some oldP then (db, 400)
       else ({ db with
           users := updateFirst (fun v => v.email == email)
             (fun v => { v with password := newP, tempPassword := none }) db.users },
         200)) := by
    unfold changePassword
    rw [hfind]
  by_cases hcpw : newP = cpw
  case neg =>
    exfalso
    rw [hbody, if_pos hcpw] at hok
    simp at hok
  by_cases hcred : u.password ≠ oldP ∧ u.tempPassword ≠ some oldP
  case pos =>
    exfalso
    rw [hbody, if_neg (not_not_intro hcpw), if_pos hcred] at hok
    simp at hok
  have hfind' := find?_updateFirst (p := fun v : User => v.email == email)
    (f := fun v : User => { v with password := newP, tempPassword := none }) (fun _ => rfl) hfind
  rw [hbody, if_neg (not_not_intro hcpw), if_neg hcred]
  exact ⟨hfind',
    login_fails_on_wrong_password _ email (some t) role _ hfind'
      (fun hh => hne (Option.some.inj hh)) (fun hh => Option.noConfusion hh)⟩

/-- C7 witness. -/
theorem changePassword_clears_temp_witness :
    (changePassword dbC7 "a@x.com" "tmp11111" "New45678!" "New45678!").1.users.find?
        (fun v => v.email == "a@x.com") =
      some ⟨"a@x.com", "New45678!", "student", none⟩ ∧
    login (changePassword dbC7 "a@x.com" "tmp11111" "New45678!" "New45678!").1
      "a@x.com" (some "tmp11111") "student" = (400, none) :=
  changePassword_clears_temp dbC7 "a@x.com" "tmp11111" "New45678!" "New45678!" "tmp11111"
    "student" ⟨"a@x.com", "Old12345!", "student", some "tmp11111"⟩
    (by decide) rfl (by decide) (by decide)

/-- C8: for a subject filter that is either absent or a nonempty string, the
assignments listing returns exactly the stored submissions whose email matches
(and whose subject matches when a subject is supplied) — as a multiset — in
descending upload-time order. -/
theorem listForStudent_spec (db : DB) (email : String) (subject : Option String)
    (hsub : subject = none ∨ ∃ s, subject = some s ∧ s ≠ "") :
    (getAssignments db email subject).Perm
      (db.assignments.filter (specListFilter email subject)) ∧
    List.Sorted uploadDesc (getAssignments db email subject) := by
  have hquery : assignmentQuery email subject = specListFilter email subject := by
    funext a
    rcases hsub with rfl | ⟨s, rfl, hs⟩
    · rfl
    · have hse : ¬(s.isEmpty = true) := by simpa [String.isEmpty_iff] using hs
      simp [assignmentQuery, specListFilter, hse]
  constructor
  · unfold getAssignments
    rw [hquery]
    exact List.perm_insertionSort uploadDesc _
  · unfold getAssignments
    exact List.sorted_insertionSort uploadDesc _

def dbC8 : DB := ⟨[],
  [⟨1, "a@x.com", some "a1.pdf", 1, "submitted", 0, "", "math"⟩,
   ⟨2, "a@x.com", some "a2.pdf", 4, "submitted", 0, "", "math"⟩,
   ⟨3, "b@x.com", some "b1.pdf", 2, "submitted", 0, "", "math"⟩,
   ⟨4, "a@x.com", some "a3.pdf", 3, "submitted", 0, "", "physics"⟩], [], []⟩

/-- C8 witness. -/
theorem listForStudent_spec_witness :
    (getAssignments dbC8 "a@x.com" (some "math")).Perm
      (dbC8.assignments.filter (specListFilter "a@x.com" (some "math"))) ∧
    List.Sorted uploadDesc (getAssignments dbC8 "a@x.com" (some "math")) :=
  listForStudent_spec dbC8 "a@x.com" (some "math") (Or.inr ⟨"math", rfl, by decide⟩)

/-- C9: changePassword applies no password-policy check: it succeeds with the
new password "abc" and stores it, although "abc" fails validatePassword and the
validating registration handler rejects it with 400 on any store. -/
theorem changePassword_skips_policy (db : DB) (email : String) (u : User)
    (hfind : db.users.find? (fun v => v.email == email) = some u) :
    (changePassword db email u.password "abc" "abc").2 = 200 ∧
    (changePassword db email u.password "abc" "abc").1.users.find?
        (fun v => v.email == email) =
      some { u with password := "abc", tempPassword := none } ∧
    validatePassword "abc" = false ∧
    (∀ d : DB, ∀ e r : String, (registerHandler2 d e "abc" r).2 = 400) := by
  have hbody : changePassword db email u.password "abc" "abc" =
      (if ("abc" : String) ≠ "abc" then (db, 400)
       else if u.password ≠ u.password ∧ u.tempPassword ≠ some u.password then (db, 400)
       else ({ db with
           users := updateFirst (fun v => v.email == email)
             (fun v => { v with password := "abc", tempPassword := none }) db.users },
         200)) := by
    unfold changePassword
    rw [hfind]
  have hfind' := find?_updateFirst (p := fun v : User => v.email == email)
    (f := fun v : User => { v with password := "abc", tempPassword := none }) (fun _ => rfl) hfind
  rw [hbody, if_neg (not_not_intro rfl),
    if_neg (show ¬(u.password ≠ u.password ∧ u.tempPassword ≠ some u.password) from
      fun hh => hh.1 rfl)]
  refine ⟨rfl, hfind', by decide, ?_⟩
  intro d e r
  unfold registerHandler2
  rw [if_pos (show (!validatePassword "abc") = true by decide)]

/-- C9 witness. -/
theorem changePassword_skips_policy_witness :
    (changePassword dbC2 "a@x.com" "Abc12345!" "abc" "abc").2 = 200 ∧
    (changePassword dbC2 "a@x.com" "Abc12345!" "abc" "abc").1.users.find?
        (fun v => v.email == "a@x.com") =
      some ⟨"a@x.com", "abc", "student", none⟩ ∧
    validatePassword "abc" = false ∧
    (∀ d : DB, ∀ e r : String, (registerHandler2 d e "abc" r).2 = 400) :=
  changePassword_skips_policy dbC2 "a@x.com"
    ⟨"a@x.com", "Abc12345!", "student", none⟩ (by decide)

/-- C10: deleting an existing submission answers 200 and removes only that
submission record: users, notifications and the uploaded files are untouched,
every other submission survives, and downloadability of every filename is
unchanged. -/
theorem deleteAssignment_frame (db : DB) (id : Nat) (a : Assignment)
    (hfind : db.assignments.find? (fun x => x.id == id) = some a) :
    (deleteAssignment db id).2 = 200 ∧
    (deleteAssignment db id).1.users = db.users ∧
    (deleteAssignment db id).1.notifications = db.notifications ∧
    (deleteAssignment db id).1.files = db.files ∧
    (deleteAssignment db id).1.assignments =
      removeFirst (fun x => x.id == id) db.assignments ∧
    (∀ b, b ∈ db.assignments → b.id ≠ id → b ∈ (deleteAssignment db id).1.assignments) ∧
    (∀ f, downloadOk (deleteAssignment db id).1 f = downloadOk db f) := by
  have hstep : deleteAssignment db id =
      ({ db with assignments := removeFirst (fun x => x.id == id) db.assignments }, 200) := by
    unfold deleteAssignment
    rw [hfind]
  rw [hstep]
  refine ⟨rfl, rfl, rfl, rfl, rfl, ?_, fun f => rfl⟩
  intro b hb hbid
  exact mem_removeFirst_of_neg (by simp [hbid]) hb

def dbC10 : DB := ⟨[⟨"s@x.com", "Abc12345!", "student", none⟩],
  [⟨1, "s@x.com", some "hw.pdf", 3, "submitted", 0, "", "math"⟩,
   ⟨2, "s@x.com", some "hw2.pdf", 4, "submitted", 0, "", "math"⟩],
  [⟨"s@x.com", "a message", 5⟩], ["hw.pdf", "hw2.pdf"]⟩

/-- C10 witness. -/
theorem deleteAssignment_frame_witness :
    (deleteAssignment dbC10 1).2 = 200 ∧
    (deleteAssignment dbC10 1).1.users = dbC10.users ∧
    (deleteAssignment dbC10 1).1.notifications = dbC10.notifications ∧
    (deleteAssignment dbC10 1).1.files = dbC10.files ∧
    (⟨2, "s@x.com", some "hw2.pdf", 4, "submitted", 0, "", "math"⟩ : Assignment) ∈
      (deleteAssignment dbC10 1).1.assignments ∧
    downloadOk (deleteAssignment dbC10 1).1 "hw.pdf" = downloadOk dbC10 "hw.pdf" := by
  have h := deleteAssignment_frame dbC10 1
    ⟨1, "s@x.com", some "hw.pdf", 3, "submitted", 0, "", "math"⟩ (by decide)
  exact ⟨h.1, h.2.1, h.2.2.1, h.2.2.2.1,
    h.2.2.2.2.2.1 _ (by decide) (by decide), h.2.2.2.2.2.2 "hw.pdf"⟩

end FraudDetection
